import Mathlib

/-!
Shallow embedding of the Monthly-Summary-Generator repository
(`SGSData.py`, `FlowData.py`, `AutoSummary.py`).

Conventions of the embedding:
* Python `datetime.datetime` values are modelled by `PyDateTime`
  (year/month/day as integers plus seconds-within-day as a rational);
  comparison of Python datetimes is the lexicographic order on these
  fields, which `PyDateTime.le` spells out.
* Worksheets are modelled by `Sheet`: bounds plus a cell function;
  `openpyxl` returns `None` for cells outside the used range, which the
  `CellVal.empty` constructor represents.
* Python integer floor division `//` and nonnegative `%` on a positive
  modulus coincide with `Int.ediv`/`Int.emod`, which are the `/` and `%`
  of `Int` here.
* Machine floats of the source are modelled by `ℚ`; the sub-microsecond
  rounding that `openpyxl.utils.datetime.from_excel` performs on the
  seconds part is dropped (it is below the resolution any of the code's
  comparisons depend on).
-/

/- ---------------------------------------------------------------- -/
/- String helpers shared by all three scripts                        -/
/- ---------------------------------------------------------------- -/

/-- Whether `needle` occurs as a contiguous run of `hay`. -/
def infixAt : List Char → List Char → Bool
  | needle, [] => needle.isEmpty
  | needle, c :: cs => needle.isPrefixOf (c :: cs) || infixAt needle cs

/-- Python's substring test `needle in hay`. -/
def strContains (hay needle : String) : Bool :=
  infixAt needle.toList hay.toList

/-- The normalisation `re.sub(r"[^a-z0-9]+", "", s)` applied by
`SGSData.py` to already-lowercased text: keep only `a`-`z` and `0`-`9`. -/
def normTok (s : String) : String :=
  ⟨(s.toLower.toList.filter (fun c => c.isLower || c.isDigit))⟩

/- ---------------------------------------------------------------- -/
/- Calendar utility (`SGSData.ym_add`, `month_start`, `month_end`)   -/
/- ---------------------------------------------------------------- -/

/-- `SGSData.ym_add`: add `delta` months to `(year, month)`.  Python's
`//` and `%` on the positive modulus `12` are `Int.ediv`/`Int.emod`. -/
def ym_add (year month delta : Int) : Int × Int :=
  (year + (month - 1 + delta) / 12, (month - 1 + delta) % 12 + 1)

/-- Gregorian leap-year rule (as used by Python's `datetime`). -/
def isLeapYear (y : Int) : Bool :=
  (y % 4 == 0 && y % 100 != 0) || y % 400 == 0

/-- Length of a month in Python's `datetime` calendar. -/
def daysInMonth (y m : Int) : Int :=
  if m = 2 then (if isLeapYear y then 29 else 28)
  else if m = 4 ∨ m = 6 ∨ m = 9 ∨ m = 11 then 30
  else 31

/-- Model of `datetime.datetime`: proleptic-Gregorian year/month/day and
seconds within the day. -/
structure PyDateTime where
  year : Int
  month : Int
  day : Int
  sec : ℚ
deriving DecidableEq

/-- Comparison of Python datetimes: lexicographic on
(year, month, day, time-of-day). -/
def PyDateTime.le (a b : PyDateTime) : Prop :=
  a.year < b.year ∨ (a.year = b.year ∧
    (a.month < b.month ∨ (a.month = b.month ∧
      (a.day < b.day ∨ (a.day = b.day ∧ a.sec ≤ b.sec)))))

instance : DecidableRel PyDateTime.le := fun a b => by
  unfold PyDateTime.le; infer_instance

/-- `SGSData.month_start`: `datetime(year, month, 1)`. -/
def month_start (y m : Int) : PyDateTime := ⟨y, m, 1, 0⟩

/-- Python's `dt - timedelta(days=1)` for a datetime at midnight of some
day (the only shape the scripts subtract from). -/
def subOneDay (d : PyDateTime) : PyDateTime :=
  if 1 < d.day then ⟨d.year, d.month, d.day - 1, d.sec⟩
  else if 1 < d.month then ⟨d.year, d.month - 1, daysInMonth d.year (d.month - 1), d.sec⟩
  else ⟨d.year - 1, 12, 31, d.sec⟩

/-- `SGSData.month_end`: first day of the next month minus one day. -/
def month_end (y m : Int) : PyDateTime :=
  let p := ym_add y m 1
  subOneDay (month_start p.1 p.2)

/- ---------------------------------------------------------------- -/
/- Day-number conversions for spreadsheet serials                    -/
/- ---------------------------------------------------------------- -/

/-- Days-since-1970-01-01 to Gregorian (year, month, day)
(Hinnant's `civil_from_days`; all divisions are floor divisions, which
`Int.ediv` provides for the positive divisors used). -/
def civilFromDays (z0 : Int) : Int × Int × Int :=
  let z := z0 + 719468
  let era := z / 146097
  let doe := z - era * 146097
  let yoe := (doe - doe / 1460 + doe / 36524 - doe / 146096) / 365
  let y := yoe + era * 400
  let doy := doe - (365 * yoe + yoe / 4 - yoe / 100)
  let mp := (5 * doy + 2) / 153
  let d := doy - (153 * mp + 2) / 5 + 1
  let m := mp + (if mp < 10 then 3 else -9)
  (y + (if m ≤ 2 then 1 else 0), m, d)

/-- Gregorian (year, month, day) to days-since-1970-01-01
(Hinnant's `days_from_civil`). -/
def daysFromCivil (y0 m d : Int) : Int :=
  let y := y0 - (if m ≤ 2 then 1 else 0)
  let era := y / 400
  let yoe := y - era * 400
  let doy := (153 * (m + (if 2 < m then -3 else 9)) + 2) / 5 + d - 1
  let doe := yoe * 365 + yoe / 4 - yoe / 100 + doy
  era * 146097 + doe - 719468

/-- The 1900-system spreadsheet epoch `datetime(1899, 12, 30)` as a day
number. -/
def excelEpochDays : Int := daysFromCivil 1899 12 30

/-- Python `datetime` construction from a day number: fails (raises)
outside the supported year range 1..9999. -/
def pyDatetimeOfDays (days : Int) (sec : ℚ) : Option PyDateTime :=
  let c := civilFromDays days
  if 1 ≤ c.1 ∧ c.1 ≤ 9999 then some ⟨c.1, c.2.1, c.2.2, sec⟩ else none

/-- Result of `openpyxl.utils.datetime.from_excel`: a datetime, a pure
time-of-day (for serials strictly between 0 and 1), or an exception. -/
inductive ExcelConv
  | dt (d : PyDateTime)
  | timeOnly (secs : ℚ)
  | fail
deriving DecidableEq

/-- `openpyxl.utils.datetime.from_excel value CALENDAR_WINDOWS_1900`:
split the serial into whole days and a fraction of a day; serials in
`(0, 1)` denote a bare time; serials in `[0, 60)` get the Lotus-bug
one-day adjustment of the 1900 date system; otherwise the result is the
epoch `1899-12-30` plus the serial in days. -/
def from_excel (v : ℚ) : ExcelConv :=
  let day := ⌊v⌋
  let secs := (v - day) * 86400
  if 0 < v ∧ v < 1 then ExcelConv.timeOnly secs
  else
    let day2 := if 0 ≤ v ∧ v < 60 then day + 1 else day
    match pyDatetimeOfDays (excelEpochDays + day2) secs with
    | some d => ExcelConv.dt d
    | none => ExcelConv.fail

/-- The manual fallback `datetime(1899,12,30) + timedelta(days=float(val))`
in `SGSData.parse_date_cell`, attempted when `from_excel` raises. -/
def excel_fallback (v : ℚ) : Option PyDateTime :=
  pyDatetimeOfDays (excelEpochDays + ⌊v⌋) ((v - ⌊v⌋) * 86400)

/- ---------------------------------------------------------------- -/
/- Cell values                                                       -/
/- ---------------------------------------------------------------- -/

/-- The cell-value shapes `openpyxl` hands the scripts: `None`, strings,
numbers (`int` and `float` are treated identically by every branch of
the source, so both are `num`), native datetimes, native dates and
native times. -/
inductive CellVal
  | empty
  | str (s : String)
  | num (q : ℚ)
  | dt (d : PyDateTime)
  | date (y m d : Int)
  | time (secs : ℚ)
deriving DecidableEq

/-- Truthiness of a cell value under Python's `bool`: `None`, `""` and
numeric zero are falsy; datetimes, dates and times are truthy. -/
def pyTruthy : CellVal → Bool
  | .empty => false
  | .str s => s ≠ ""
  | .num q => q ≠ 0
  | .dt _ => true
  | .date _ _ _ => true
  | .time _ => true

/-- Python's `str(value)` for cell values.  The scan heuristics only ever
look for alphabetic keywords inside this text, and the numeric, datetime,
date and time renderings contain no alphabetic characters, which is the
only property of those renderings the embedding relies on. -/
def pyStr : CellVal → String
  | .empty => ""
  | .str s => s
  | .num q => toString q.num ++ (if q.den = 1 then "" else "/" ++ toString q.den)
  | .dt d => toString d.year ++ "-" ++ toString d.month ++ "-" ++ toString d.day
  | .date y m d => toString y ++ "-" ++ toString m ++ "-" ++ toString d
  | .time s => toString s.num ++ ":" ++ toString s.den

/- ---------------------------------------------------------------- -/
/- `datetime.strptime` for the formats the scripts use               -/
/- ---------------------------------------------------------------- -/

/-- Format directives occurring in the scripts' date formats. -/
inductive FmtTok
  | lit (c : Char)
  | wsp
  | dayNum
  | monthNum
  | monthAbbrev
  | monthFull
  | year4
  | year2
deriving DecidableEq

def MONTH_ABBREVS_LOWER : List String :=
  ["jan", "feb", "mar", "apr", "may", "jun",
   "jul", "aug", "sep", "oct", "nov", "dec"]

def MONTH_NAMES_LOWER : List String :=
  ["january", "february", "march", "april", "may", "june",
   "july", "august", "september", "october", "november", "december"]

def digitVal (c : Char) : Nat := c.toNat - 48

/-- One- or two-digit numeric field (`%d` with `bound = 31`, `%m` with
`bound = 12`): Python's regex takes two digits when their value is in
`1..bound` (leading zero allowed) and otherwise falls back to a single
nonzero digit.  In the formats used here every numeric field is followed
by a non-digit or the end of input, so regex backtracking never changes
the outcome and this greedy reading is exact. -/
def parseNum2 (bound : Nat) : List Char → Option (Nat × List Char)
  | c1 :: c2 :: rest =>
    if c1.isDigit ∧ c2.isDigit ∧ 1 ≤ 10 * digitVal c1 + digitVal c2 ∧
        10 * digitVal c1 + digitVal c2 ≤ bound then
      some (10 * digitVal c1 + digitVal c2, rest)
    else if c1.isDigit ∧ 1 ≤ digitVal c1 then some (digitVal c1, c2 :: rest)
    else none
  | [c1] => if c1.isDigit ∧ 1 ≤ digitVal c1 then some (digitVal c1, []) else none
  | [] => none

/-- `%Y`: exactly four digits. -/
def parseYear4 : List Char → Option (Int × List Char)
  | c1 :: c2 :: c3 :: c4 :: rest =>
    if c1.isDigit ∧ c2.isDigit ∧ c3.isDigit ∧ c4.isDigit then
      some (((1000 * digitVal c1 + 100 * digitVal c2 + 10 * digitVal c3 + digitVal c4 : Nat) : Int), rest)
    else none
  | _ => none

/-- `%y`: exactly two digits; `00`-`68` map to 2000-2068 and `69`-`99`
to 1969-1999. -/
def parseYear2 : List Char → Option (Int × List Char)
  | c1 :: c2 :: rest =>
    if c1.isDigit ∧ c2.isDigit then
      let n := 10 * digitVal c1 + digitVal c2
      some ((if n ≤ 68 then (2000 + n : Nat) else 1900 + n : Nat), rest)
    else none
  | _ => none

/-- Case-insensitive removal of the (already lowercase) pattern from the
front of the input. -/
def stripPrefixCI : List Char → List Char → Option (List Char)
  | [], cs => some cs
  | _ :: _, [] => none
  | p :: ps, c :: cs => if c.toLower = p then stripPrefixCI ps cs else none

/-- Match one name of the list (case-insensitively) at the front of the
input, returning its 0-based index. -/
def matchMonthName : List String → Nat → List Char → Option (Nat × List Char)
  | [], _, _ => none
  | n :: rest, i, cs =>
    match stripPrefixCI n.toList cs with
    | some cs2 => some (i, cs2)
    | none => matchMonthName rest (i + 1) cs

/-- Drop further whitespace (the tail of a `\s+` match). -/
def dropWsRest : List Char → List Char
  | c :: cs => if c.isWhitespace then dropWsRest cs else c :: cs
  | [] => []

/-- A whitespace run of length at least one (`\s+`). -/
def dropWs1 : List Char → Option (List Char)
  | c :: cs => if c.isWhitespace then some (dropWsRest cs) else none
  | [] => none

/-- Accumulated year/month/day fields of a `strptime` match. -/
structure YmdAcc where
  y : Option Int
  m : Option Int
  d : Option Int
deriving DecidableEq

def runTok (t : FmtTok) (cs : List Char) (acc : YmdAcc) : Option (List Char × YmdAcc) :=
  match t with
  | .lit c =>
    match cs with
    | c2 :: rest => if c2.toLower = c.toLower then some (rest, acc) else none
    | [] => none
  | .wsp => (dropWs1 cs).map (fun r => (r, acc))
  | .dayNum => (parseNum2 31 cs).map (fun p => (p.2, { acc with d := some (p.1 : Int) }))
  | .monthNum => (parseNum2 12 cs).map (fun p => (p.2, { acc with m := some (p.1 : Int) }))
  | .monthAbbrev =>
    (matchMonthName MONTH_ABBREVS_LOWER 0 cs).map
      (fun p => (p.2, { acc with m := some ((p.1 : Int) + 1) }))
  | .monthFull =>
    (matchMonthName MONTH_NAMES_LOWER 0 cs).map
      (fun p => (p.2, { acc with m := some ((p.1 : Int) + 1) }))
  | .year4 => (parseYear4 cs).map (fun p => (p.2, { acc with y := some p.1 }))
  | .year2 => (parseYear2 cs).map (fun p => (p.2, { acc with y := some p.1 }))

/-- Run a whole format; `strptime` requires the entire input consumed. -/
def runFmt : List FmtTok → List Char → YmdAcc → Option YmdAcc
  | [], cs, acc => if cs = [] then some acc else none
  | t :: ts, cs, acc =>
    match runTok t cs acc with
    | some (cs2, acc2) => runFmt ts cs2 acc2
    | none => none

/-- `datetime.strptime(s, fmt)` restricted to the date fields the
scripts' formats populate: missing fields default to 1900-01-01, and the
`datetime` constructor validates the day against the month length. -/
def strptimeYmd (toks : List FmtTok) (s : String) : Option PyDateTime :=
  match runFmt toks s.toList ⟨none, none, none⟩ with
  | some acc =>
    let y := acc.y.getD 1900
    let m := acc.m.getD 1
    let d := acc.d.getD 1
    if 1 ≤ y ∧ y ≤ 9999 ∧ 1 ≤ m ∧ m ≤ 12 ∧ 1 ≤ d ∧ d ≤ daysInMonth y m then
      some ⟨y, m, d, 0⟩
    else none
  | none => none

/-- `SGSData.DATE_PARSE_FORMATS`, tokenised:
`"%d-%b-%Y"`, `"%d-%b-%y"`, `"%Y-%m-%d"`, `"%b %d, %Y"`, `"%B %d, %Y"`,
`"%d/%m/%Y"`, `"%m/%d/%Y"`. -/
def DATE_PARSE_FORMATS : List (List FmtTok) :=
  [ [.dayNum, .lit '-', .monthAbbrev, .lit '-', .year4]
  , [.dayNum, .lit '-', .monthAbbrev, .lit '-', .year2]
  , [.year4, .lit '-', .monthNum, .lit '-', .dayNum]
  , [.monthAbbrev, .wsp, .dayNum, .lit ',', .wsp, .year4]
  , [.monthFull, .wsp, .dayNum, .lit ',', .wsp, .year4]
  , [.dayNum, .lit '/', .monthNum, .lit '/', .year4]
  , [.monthNum, .lit '/', .dayNum, .lit '/', .year4] ]

/-- The labels `SGSData.parse_date_cell` rejects outright. -/
def DATE_LABELS : List String :=
  ["units", "average", "median", "cofa objective", "eca objective",
   "cofa limit", "eca limit"]

/-- `SGSData.parse_date_cell`.  Order of the source's branches: native
datetime, `None`/blank string, labelled or formatted string, numeric
serial (with the manual-epoch fallback when `from_excel` raises, and
rejection of pure time-of-day conversions), native time, native date. -/
def parse_date_cell : CellVal → Option PyDateTime
  | .dt d => some d
  | .empty => none
  | .str s =>
    if s.trim = "" then none
    else
      let t := s.trim
      if t.toLower ∈ DATE_LABELS then none
      else DATE_PARSE_FORMATS.findSome? (fun f => strptimeYmd f t)
  | .num v =>
    match from_excel v with
    | .dt d => some d
    | .timeOnly _ => none
    | .fail => excel_fallback v
  | .time _ => none
  | .date y m d => some ⟨y, m, d, 0⟩

/- ---------------------------------------------------------------- -/
/- Python float coercion                                             -/
/- ---------------------------------------------------------------- -/

def digitsToNat (ds : List Char) : Nat :=
  ds.foldl (fun a c => 10 * a + digitVal c) 0

/-- Python's `float(s)` on a stripped string: optional sign, decimal
digits with an optional point (at least one digit), optional exponent.
The `inf`/`nan` spellings and digit-group underscores, which never
denote rationals or never occur in these spreadsheets, are not
modelled. -/
def pyFloatCore (cs0 : List Char) : Option ℚ :=
  let s1 : ℚ × List Char :=
    match cs0 with
    | '+' :: r => (1, r)
    | '-' :: r => (-1, r)
    | r => (1, r)
  let ip := s1.2.span Char.isDigit
  let fp : Option (List Char) × List Char :=
    match ip.2 with
    | '.' :: r => let f := r.span Char.isDigit; (some f.1, f.2)
    | r => (none, r)
  let frac := fp.1.getD []
  if ip.1 = [] ∧ frac = [] then none
  else
    let mant : ℚ := (digitsToNat ip.1 : ℚ) + (digitsToNat frac : ℚ) / ((10 : ℚ) ^ frac.length)
    match fp.2 with
    | [] => some (s1.1 * mant)
    | e :: r =>
      if e = 'e' ∨ e = 'E' then
        let es : Int × List Char :=
          match r with
          | '+' :: r2 => (1, r2)
          | '-' :: r2 => (-1, r2)
          | r2 => (1, r2)
        let ed := es.2.span Char.isDigit
        if ed.1 = [] ∨ ed.2 ≠ [] then none
        else some (s1.1 * mant * (10 : ℚ) ^ (es.1 * (digitsToNat ed.1 : Int)))
      else none

/-- Python's `float(value)` on a cell value: numbers coerce, numeric
strings parse (after stripping), everything else raises. -/
def pyFloat : CellVal → Option ℚ
  | .num q => some q
  | .str s => pyFloatCore s.trim.toList
  | _ => none

/- ---------------------------------------------------------------- -/
/- Worksheets                                                        -/
/- ---------------------------------------------------------------- -/

/-- A worksheet: used-range bounds and a cell function (1-indexed, as in
`openpyxl`; cells outside the used range read as `None`). -/
structure Sheet where
  maxRow : Nat
  maxCol : Nat
  cell : Nat → Nat → CellVal

/-- `SGSData.text`: `str` of the cell value (empty for `None`),
stripped. -/
def text (ws : Sheet) (r c : Nat) : String :=
  (pyStr (ws.cell r c)).trim

/- ---------------------------------------------------------------- -/
/- SGSData: locating structure                                       -/
/- ---------------------------------------------------------------- -/

def PARAM_KEYS : List String :=
  ["cbod", "cbod5", "tss", "tp", "tan", "tkn", "no3", "no2", "tn", "bod", "bod5"]

def GROUP1_KEYS : List String := ["cbod5", "bod5", "tss", "cbod", "bod"]

def GROUP2_KEYS : List String := ["tkn", "tan", "no2", "no3", "tn"]

def EXCLUDE_HDR_WORDS : List String :=
  ["units", "objective", "limit", "average", "median", "cofa", "eca"]

/-- Number of cells of row `r` (within the 80-column scan cap) whose
normalised text contains some parameter keyword
(`SGSData.find_param_header_row`'s per-row hit count). -/
def rowHits (ws : Sheet) (r : Nat) : Nat :=
  ((List.range' 1 (min ws.maxCol 80)).filter (fun c =>
    let s := (text ws r c).toLower
    if s = "" then false
    else PARAM_KEYS.any (fun k => strContains (normTok s) k))).length

/-- `SGSData.find_param_header_row`: first row (within the 80×80 scan
cap) with at least two parameter-keyword hits. -/
def find_param_header_row (ws : Sheet) : Option Nat :=
  (List.range' 1 (min ws.maxRow 80)).find? (fun r => decide (2 ≤ rowHits ws r))

/-- Row-major enumeration of the scan region. -/
def scanPairs (maxR maxC : Nat) : List (Nat × Nat) :=
  (List.range' 1 maxR).flatMap (fun r => (List.range' 1 maxC).map (fun c => (r, c)))

/-- Score of column `c`: how many of the first `n` rows parse as a date
(`SGSData.find_date_column`'s fallback). -/
def dateScore (ws : Sheet) (n c : Nat) : Nat :=
  ((List.range' 1 n).filter (fun r => (parse_date_cell (ws.cell r c)).isSome)).length

/-- `SGSData.find_date_column`: first cell (row-major, 60×60 cap) whose
text contains "date" wins; otherwise the first column attaining the
maximal date-parse score over the first `min maxRow 40` rows, seeded
with score `-1`. -/
def find_date_column (ws : Sheet) : Option Nat :=
  let maxR := min ws.maxRow 60
  let maxC := min ws.maxCol 60
  match (scanPairs maxR maxC).find?
      (fun rc => strContains (text ws rc.1 rc.2).toLower "date") with
  | some rc => some rc.2
  | none =>
    let n := min ws.maxRow 40
    ((List.range' 1 maxC).foldl
      (fun best c =>
        if (dateScore ws n c : Int) > best.2 then (some c, (dateScore ws n c : Int)) else best)
      ((none : Option Nat), (-1 : Int))).1

/- ---------------------------------------------------------------- -/
/- SGSData: per-sheet extraction                                     -/
/- ---------------------------------------------------------------- -/

def META_ROW_KEYS : List String := ["units", "cofa", "eca", "objective", "limit"]

/-- The source's `" ".join(text(ws, r, c).lower() for c in ...)` over the
full column range. -/
def rowJoinedLower (ws : Sheet) (r : Nat) : String :=
  String.intercalate " " ((List.range' 1 ws.maxCol).map (fun c => (text ws r c).toLower))

/-- One step of the meta-row skip after the parameter header. -/
def skipMetaRow (ws : Sheet) (r : Nat) : Nat :=
  if META_ROW_KEYS.any (fun k => strContains (rowJoinedLower ws r) k) then r + 1 else r

/-- Data start row: parameter row plus one, then up to two meta rows
(units / CofA / ECA / objective / limit) skipped. -/
def sgs_start_row (ws : Sheet) (paramRow : Nat) : Nat :=
  skipMetaRow ws (skipMetaRow ws (paramRow + 1))

/-- All rows from the start row down whose date-column cell parses as a
date, with their timestamps (the source's parallel `dates`/`row_idxs`
lists). -/
def sgsDatedRows (ws : Sheet) (startRow dateCol : Nat) : List (Nat × PyDateTime) :=
  (List.range' startRow (ws.maxRow + 1 - startRow)).filterMap
    (fun r => (parse_date_cell (ws.cell r dateCol)).map (fun d => (r, d)))

/-- Python's `max` over a nonempty list of datetimes (first maximum kept;
the empty case is unreachable behind the source's `if not dates`
guard). -/
def latestDate : List PyDateTime → PyDateTime
  | [] => ⟨1, 1, 1, 0⟩
  | d :: ds => ds.foldl (fun a b => if b.le a then a else b) d

/-- Reference month and year of the window: last entry of the
command-line month tokens with the given year, else month/year of the
latest parsed date. -/
def sgsSel (months : List Int) (year : Int) (dates : List PyDateTime) : Int × Int :=
  match months.getLast? with
  | some m => (year, m)
  | none => let l := latestDate dates; (l.year, l.month)

def isNumCell : CellVal → Bool
  | .num _ => true
  | _ => false

/-- A retained parameter column: worksheet column index, raw header
label, and its group memberships. -/
structure ParamCol where
  idx : Nat
  label : String
  g1 : Bool
  g2 : Bool
deriving DecidableEq

/-- Column selection of `table_then_two_graphs`: skip the date column,
blank or excluded headers and headers in neither group; require at least
one numeric cell among the in-window rows. -/
def sgsCols (ws : Sheet) (paramRow dateCol : Nat) (inWin : List (Nat × PyDateTime)) :
    List ParamCol :=
  (List.range' 1 ws.maxCol).filterMap (fun c =>
    if c = dateCol then none
    else
      let raw := text ws paramRow c
      if raw = "" then none
      else
        let nm := normTok raw.toLower
        if nm = "" ∨ nm = "date" ∨ EXCLUDE_HDR_WORDS.any (fun w => strContains nm w) then
          none
        else
          let g1 := GROUP1_KEYS.any (fun k => strContains nm k)
          let g2 := GROUP2_KEYS.any (fun k => strContains nm k)
          if g1 || g2 then
            if inWin.any (fun p => isNumCell (ws.cell p.1 c)) then some ⟨c, raw, g1, g2⟩
            else none
          else none)

/-- Points of one graph series: every in-window row whose cell in column
`c` float-coerces contributes `(timestamp, value)`; others are silently
omitted. -/
def seriesPoints (ws : Sheet) (inWin : List (Nat × PyDateTime)) (c : Nat) :
    List (PyDateTime × ℚ) :=
  inWin.filterMap (fun p => (pyFloat (ws.cell p.1 c)).map (fun q => (p.2, q)))

/-- The labelled series of one graph (group 1 or group 2), dropping
empty series.  The source keys these by label in a `dict` (a duplicate
header label would overwrite an earlier one); the model keeps the full
association list, of which every dict entry is a member. -/
def sgsSeries (ws : Sheet) (inWin : List (Nat × PyDateTime)) (cols : List ParamCol)
    (useG1 : Bool) : List (String × List (PyDateTime × ℚ)) :=
  (cols.filter (fun pc => if useG1 then pc.g1 else pc.g2)).filterMap
    (fun pc =>
      let pts := seriesPoints ws inWin pc.idx
      if pts = [] then none else some (pc.label, pts))

/-- The data `table_then_two_graphs` extracts from one worksheet (the
docx rendering of it is out of scope): located anchors, resolved window,
the in-window rows backing the table, the retained columns, and the two
graph series sets. -/
structure SGSResult where
  paramRow : Nat
  dateCol : Nat
  startRow : Nat
  selYear : Int
  selMonth : Int
  startDt : PyDateTime
  endDt : PyDateTime
  tableRows : List (Nat × PyDateTime)
  cols : List ParamCol
  series1 : List (String × List (PyDateTime × ℚ))
  series2 : List (String × List (PyDateTime × ℚ))
deriving DecidableEq

/-- Body of `table_then_two_graphs` once both anchors are located: skip
meta rows, collect dated rows, resolve the 6-month window ending at the
selected month, filter rows to the window, select columns, and build the
table backing and both series sets.  Returns `none` exactly where the
source returns `False` (no dates, empty window, no columns). -/
def sgsBuild (ws : Sheet) (months : List Int) (year : Int) (pr dc : Nat) :
    Option SGSResult :=
  let sr := sgs_start_row ws pr
  let dated := sgsDatedRows ws sr dc
  if dated = [] then none
  else
    let sel := sgsSel months year (dated.map (fun p => p.2))
    let sm := ym_add sel.1 sel.2 (-5)
    let startDt := month_start sm.1 sm.2
    let endDt := month_end sel.1 sel.2
    let inWin := dated.filter (fun (p : Nat × PyDateTime) => decide (startDt.le p.2 ∧ p.2.le endDt))
    if inWin = [] then none
    else
      let cols := sgsCols ws pr dc inWin
      if cols = [] then none
      else
        some ⟨pr, dc, sr, sel.1, sel.2, startDt, endDt, inWin, cols,
              sgsSeries ws inWin cols true, sgsSeries ws inWin cols false⟩

/-- `SGSData.table_then_two_graphs` (data part): returns `none` when
either anchor is missing, else extracts via `sgsBuild`. -/
def table_then_two_graphs (ws : Sheet) (months : List Int) (year : Int) :
    Option SGSResult :=
  match find_param_header_row ws, find_date_column ws with
  | some pr, some dc => sgsBuild ws months year pr dc
  | _, _ => none

/-- Order on series points by timestamp, the sort key of
`plot_series_to_doc`. -/
def ptLe (a b : PyDateTime × ℚ) : Prop := a.1.le b.1

instance : DecidableRel ptLe := fun a b => by
  unfold ptLe; infer_instance

/-- `plot_series_to_doc`'s per-series preparation: the
`isinstance(dt, datetime)` filter keeps every point (all timestamps are
datetimes by construction), and `pts.sort(key=lambda x: x[0])` is a
stable ascending sort by timestamp. -/
def plotClean (pts : List (PyDateTime × ℚ)) : List (PyDateTime × ℚ) :=
  List.insertionSort ptLe pts

/- ---------------------------------------------------------------- -/
/- SGSData: main-loop sheet iteration                                -/
/- ---------------------------------------------------------------- -/

/-- Whether a sheet name qualifies for SGS extraction
(`SGSData.main`'s `process` test). -/
def sheetIsProcess (name : String) : Bool :=
  let ln := name.toLower
  (["raw", "sewage", "biofilter", "waternox", "waternox-ls"].any
    (fun k => strContains ln k))
  || (strContains ln "final effluent" || strContains ln "polisher effluent")

/-- Whether a sheet name stops the iteration (`SGSData.main`'s break
condition). -/
def sheetIsFinal (name : String) : Bool :=
  let ln := name.toLower
  strContains ln "final effluent" || strContains ln "polisher effluent"

/-- The sheet names on which `SGSData.main` invokes
`table_then_two_graphs`, in order: non-process names are skipped
(`continue`, which also skips the break test), and the loop breaks right
after processing a final/polisher sheet. -/
def sgsProcessedNames : List String → List String
  | [] => []
  | n :: rest =>
    if sheetIsProcess n then
      n :: (if sheetIsFinal n then [] else sgsProcessedNames rest)
    else sgsProcessedNames rest

/- ---------------------------------------------------------------- -/
/- FlowData: locating the Date/Average block                         -/
/- ---------------------------------------------------------------- -/

/-- Whether the first cell of row `r` is the string "date" (stripped,
case-insensitively) — `FlowData.sheet_to_word_table`'s date-row test. -/
def flowIsDateCell (ws : Sheet) (r : Nat) : Bool :=
  match ws.cell r 1 with
  | CellVal.str s => s.trim.toLower == "date"
  | _ => false

/-- The source's `" ".join(str(...).lower() ...)` over the non-`None`
cells of row `r` (unstripped). -/
def flowRowText (ws : Sheet) (r : Nat) : String :=
  String.intercalate " "
    ((List.range' 1 ws.maxCol).filterMap (fun c =>
      match ws.cell r c with
      | CellVal.empty => none
      | v => some (pyStr v).toLower))

def flowRowContainsAverage (ws : Sheet) (r : Nat) : Bool :=
  strContains (flowRowText ws r) "average"

/-- The scan loop of `sheet_to_word_table`: walk rows downward keeping
the latest "date" row; break at the first row containing "average" once
a date row is known (the break returns both). -/
def flowFindRowsGo (ws : Sheet) : Nat → Nat → Option Nat → Option (Nat × Nat)
  | 0, _, _ => none
  | k + 1, r, dr =>
    let dr2 := if flowIsDateCell ws r then some r else dr
    match dr2 with
    | some d =>
      if flowRowContainsAverage ws r then some (d, r)
      else flowFindRowsGo ws k (r + 1) dr2
    | none => flowFindRowsGo ws k (r + 1) dr2

/-- Date row and Average row of a flow sheet; `none` when either is
missing (the source then skips the sheet).  The source's extra
`avg_row < date_row` rejection is kept although the scan never produces
that shape. -/
def flowFindRows (ws : Sheet) : Option (Nat × Nat) :=
  match flowFindRowsGo ws ws.maxRow 1 none with
  | some (d, a) => if a < d then none else some (d, a)
  | none => none

/-- Header text of column `c` on the date row: `str(raw).strip().lower()`
with `''` for `None`. -/
def flowHeader (ws : Sheet) (dateRow c : Nat) : String :=
  match ws.cell dateRow c with
  | CellVal.empty => ""
  | v => (pyStr v).trim.toLower

/-- The regex `^pump\s*\d` on an (already lowercased) header. -/
def isPumpHeader (s : String) : Bool :=
  let cs := s.toList
  if ['p', 'u', 'm', 'p'].isPrefixOf cs then
    match (cs.drop 4).dropWhile Char.isWhitespace with
    | c :: _ => c.isDigit
    | [] => false
  else false

/-- The column-scan break: a header containing "daily" that does not
start with "total daily flow". -/
def flowDailyBreak (s : String) : Bool :=
  strContains s "daily" && !(s.startsWith "total daily flow")

/-- Whether column `c` holds any value other than `None`/`""` between the
date row and the average row (inclusive). -/
def flowColHasData (ws : Sheet) (dateRow avgRow c : Nat) : Bool :=
  (List.range' dateRow (avgRow + 1 - dateRow)).any (fun r =>
    decide (ws.cell r c ≠ CellVal.empty ∧ ws.cell r c ≠ CellVal.str ""))

/-- The retained columns (1-based; the source stores 0-based indices and
re-adds 1 at every use): scan columns left to right, stop at the first
"daily" breaker, drop pump columns and columns with no data. -/
def flowKeepCols (ws : Sheet) (dateRow avgRow : Nat) : List Nat :=
  ((List.range' 1 ws.maxCol).takeWhile
      (fun c => !(flowDailyBreak (flowHeader ws dateRow c)))).filter
    (fun c => !(isPumpHeader (flowHeader ws dateRow c)) && flowColHasData ws dateRow avgRow c)

/-- The charted column: first kept column headed "flow" (stripped,
lowercased), else the last kept column (`keep_cols` is nonempty behind
the source's guard; 0 is an unreachable default). -/
def flowChartCol (ws : Sheet) (dateRow : Nat) (keep : List Nat) : Nat :=
  match keep.find? (fun c =>
      match ws.cell dateRow c with
      | CellVal.str s => s.trim.toLower == "flow"
      | _ => false) with
  | some c => c
  | none => keep.getLast?.getD 0

/-- `FlowData`'s date formats, in its order:
`"%d-%b-%y"`, `"%d-%b-%Y"`, `"%Y-%m-%d"`, `"%b %d, %Y"`, `"%B %d, %Y"`. -/
def FLOW_DATE_FORMATS : List (List FmtTok) :=
  [ [.dayNum, .lit '-', .monthAbbrev, .lit '-', .year2]
  , [.dayNum, .lit '-', .monthAbbrev, .lit '-', .year4]
  , [.year4, .lit '-', .monthNum, .lit '-', .dayNum]
  , [.monthAbbrev, .wsp, .dayNum, .lit ',', .wsp, .year4]
  , [.monthFull, .wsp, .dayNum, .lit ',', .wsp, .year4] ]

/-- `FlowData`'s per-row date resolution: a native datetime is used
directly; otherwise a truthy value's `str` is tried against the format
list; a falsy value or a failed parse leaves the row dateless. -/
def flowParseDate (v : CellVal) : Option PyDateTime :=
  match v with
  | CellVal.dt d => some d
  | _ =>
    if pyTruthy v then FLOW_DATE_FORMATS.findSome? (fun f => strptimeYmd f (pyStr v))
    else none

/-- The `(dt, fval)` pairs `sheet_to_word_table` accumulates in `times`
and `values`: one pair per row of the Date..Average block whose charted
cell float-coerces; the date may be absent. -/
def flowExtracted (ws : Sheet) (dateRow avgRow chartCol : Nat) :
    List (Option PyDateTime × ℚ) :=
  (List.range' dateRow (avgRow + 1 - dateRow)).filterMap (fun r =>
    (pyFloat (ws.cell r chartCol)).map (fun q => (flowParseDate (ws.cell r 1), q)))

/-- The rows actually charted, in source order: if no row has a usable
date (and some value exists), a 1..n index axis is used; otherwise the
dated rows in extraction order, plotted against their day-of-month. -/
def flowPlotted (ws : Sheet) (dateRow avgRow chartCol : Nat) : List (Int × ℚ) :=
  let ex := flowExtracted ws dateRow avgRow chartCol
  if !ex.isEmpty && ex.all (fun p => p.1.isNone) then
    ((List.range' 1 ex.length).map (fun i => (i : Int))).zip (ex.map (fun p => p.2))
  else
    ex.filterMap (fun p => p.1.map (fun d => (d.day, p.2)))

/-- The exceedance list: every extracted pair whose value strictly
exceeds the peak capacity (`fval > peak_capacity`; the accompanying
`chart_col_idx is not None` conjunct always holds by the time the loop
runs, since the no-"flow"-column fallback sets it). -/
def flowExceedances (pairs : List (Option PyDateTime × ℚ)) (peak : ℚ) :
    List (Option PyDateTime × ℚ) :=
  pairs.filter (fun p => decide (peak < p.2))

/-- The three narrative bands of the average-versus-capacity sentence. -/
inductive AvgClass
  | wellWithin
  | closeTo
  | above
deriving DecidableEq

/-- `avg_classification` of `sheet_to_word_table`: "well within" below
90% of the peak, "close to" from 90% up to the peak inclusive, "above"
beyond it. -/
def avg_classification (avgFlow peak : ℚ) : AvgClass :=
  if avgFlow < (9 : ℚ) / 10 * peak then AvgClass.wellWithin
  else if avgFlow ≤ peak then AvgClass.closeTo
  else AvgClass.above

/-- `sum(values) / len(values)` (guarded nonempty in the source). -/
def avgOf (vs : List ℚ) : ℚ := vs.sum / (vs.length : ℚ)

/- ---------------------------------------------------------------- -/
/- AutoSummary: schedule window, FlowData: month/year pairing        -/
/- ---------------------------------------------------------------- -/

/-- `AutoSummary.MONTHS_FULL` (and the identical `month_names_full` list
of `FlowData.main`). -/
def MONTHS_FULL : List String :=
  ["January", "February", "March", "April", "May", "June",
   "July", "August", "September", "October", "November", "December"]

/-- `MONTH_TO_NUM[m]`; `none` models the `KeyError` a name outside the
table raises. -/
def MONTH_TO_NUM (m : String) : Option Nat :=
  (MONTHS_FULL.indexOf? m).map (fun i => i + 1)

/-- `NUM_TO_MONTH[n]`, total because every caller passes a month number
in 1..12 (the `""` default is unreachable). -/
def NUM_TO_MONTH (n : Nat) : String :=
  MONTHS_FULL.getD (n - 1) ""

def nextMonthNum (i : Nat) : Nat := if i = 12 then 1 else i + 1

/-- The `while True` walk of `months_between_inclusive`, with fuel: for
month numbers in 1..12 the loop provably ends within 12 steps (and
outside them the Python loop would never end; callers only pass valid
months). -/
def monthsWalk : Nat → Nat → Nat → List Nat
  | 0, _, _ => []
  | fuel + 1, i, e => if i = e then [i] else i :: monthsWalk fuel (nextMonthNum i) e

/-- `AutoSummary.months_between_inclusive`: calendar walk from `prev` to
`curr`, inclusive, wrapping December to January. -/
def months_between_inclusive (prev curr : String) : Option (List String) := do
  let s ← MONTH_TO_NUM prev
  let e ← MONTH_TO_NUM curr
  pure ((monthsWalk 12 s e).map NUM_TO_MONTH)

/-- `AutoSummary.previous_visit_month`: the entry before the first
occurrence of `curr` in the visit list, wrapping to the last entry when
`curr` is first; `none` (the caught `ValueError`) when absent. -/
def previous_visit_month (visits : List String) (curr : String) : Option String :=
  match visits.indexOf? curr with
  | some idx => if 0 < idx then visits[idx - 1]? else visits.getLast?
  | none => none

/-- The month span `run_summary` builds: the walk from the previous visit
month when one exists, else the single picked month.  Python tests the
previous month with truthiness, so a (never scheduled) empty-string
entry also degrades to the single month. -/
def span_months (visits : List String) (curr : String) : Option (List String) :=
  match previous_visit_month visits curr with
  | some prev => if prev = "" then some [curr] else months_between_inclusive prev curr
  | none => some [curr]

/-- `run_summary`'s `month_numbers`: the span mapped through
`MONTH_TO_NUM` (entries are always valid names there, so the lookup is
total; 13 is an unreachable junk value). -/
def month_numbers_of (span : List String) : List Nat :=
  span.map (fun m => MONTHS_FULL.indexOf m + 1)

/-- The `(month, year)` pairs `FlowData.main` iterates: the parsed
`months_csv` tokens sorted ascending, each paired with the single
`year` argument. -/
def flowMonthPairs (months : List Nat) (year : Int) : List (Nat × Int) :=
  (List.insertionSort (fun a b => a ≤ b) months).map (fun m => (m, year))

/-- The sheet-name token `FlowData.main` searches for a month: 3-letter
month abbreviation plus the last two digits of the single `year`
argument. -/
def flowTarget (m : Nat) (year : Int) : String :=
  (MONTHS_FULL.getD (m - 1) "").take 3 ++ " " ++
    (toString year).drop ((toString year).length - 2)

/-- The full window pipeline from a site's visit schedule to the
month/year pairs FlowData looks up (the months-CSV round trip between
the scripts is the identity on the token list). -/
def monthWindowPairsFlow (visits : List String) (curr : String) (year : Int) :
    Option (List (Nat × Int)) :=
  (span_months visits curr).map (fun sp => flowMonthPairs (month_numbers_of sp) year)

/- ---------------------------------------------------------------- -/
/- Derived notions used by the verification statements               -/
/- ---------------------------------------------------------------- -/

/-- The 6-month fixed-lookback window ending at `(y, m)`, as month/year
pairs: the months `table_then_two_graphs` spans between its `start_dt`
and `end_dt`. -/
def lookbackWindow (y m : Int) : List (Int × Int) :=
  [ym_add y m (-5), ym_add y m (-4), ym_add y m (-3),
   ym_add y m (-2), ym_add y m (-1), ym_add y m 0]

/-- Linearisation of a (year, month) pair onto a month axis. -/
def monthIdx (y m : Int) : Int := 12 * y + (m - 1)

/-- A date-valued timestamp: calendar-valid fields at midnight (the
shape every whole-day spreadsheet date normalises to). -/
def validDayDate (d : PyDateTime) : Prop :=
  1 ≤ d.month ∧ d.month ≤ 12 ∧ 1 ≤ d.day ∧ d.day ≤ daysInMonth d.year d.month ∧ d.sec = 0

/-- Calendar successor on (month, year) pairs (December rolls into
January of the next year). -/
def nextMonthPair (p : Nat × Int) : Nat × Int :=
  if p.1 = 12 then (1, p.2 + 1) else (p.1 + 1, p.2)

/-- Lexicographic key of a `PyDateTime`. -/
def dtKey (d : PyDateTime) : Lex (Int × Lex (Int × Lex (Int × ℚ))) :=
  toLex (d.year, toLex (d.month, toLex (d.day, d.sec)))

/- ---------------------------------------------------------------- -/
/- Concrete worksheets used as test vectors                          -/
/- ---------------------------------------------------------------- -/

/-- An SGS-shaped worksheet: header row `Date / cBOD5 / TSS`, a data row
dated by serial 45300 (2024-01-09, midnight) and a data row dated by
serial 45322.5 (2024-01-31 at noon). -/
def ws1 : Sheet where
  maxRow := 4
  maxCol := 3
  cell := fun r c =>
    match r, c with
    | 1, 1 => .str "Date"
    | 1, 2 => .str "cBOD5"
    | 1, 3 => .str "TSS"
    | 2, 1 => .num 45300
    | 2, 2 => .num 3
    | 2, 3 => .num 7
    | 3, 1 => .num (90645 / 2 : ℚ)
    | 3, 2 => .num 5
    | 3, 3 => .num 6
    | _, _ => .empty

/-- A worksheet in which no cell contains the token "date" and no cell
parses as a date. -/
def ws2 : Sheet where
  maxRow := 2
  maxCol := 2
  cell := fun _ _ => .str "x"

/-- A flow worksheet whose two data rows are out of chronological order
(Jan 5 before Jan 2). -/
def wsF : Sheet where
  maxRow := 4
  maxCol := 2
  cell := fun r c =>
    match r, c with
    | 1, 1 => .str "Date"
    | 1, 2 => .str "Flow"
    | 2, 1 => .dt ⟨2024, 1, 5, 0⟩
    | 2, 2 => .num 10
    | 3, 1 => .dt ⟨2024, 1, 2, 0⟩
    | 3, 2 => .num 20
    | 4, 1 => .str "Average"
    | 4, 2 => .num 15
    | _, _ => .empty

/-- The extraction result on `ws1` for window month 1 of 2024. -/
def sgsRes1 : SGSResult where
  paramRow := 1
  dateCol := 1
  startRow := 2
  selYear := 2024
  selMonth := 1
  startDt := ⟨2023, 8, 1, 0⟩
  endDt := ⟨2024, 1, 31, 0⟩
  tableRows := [(2, ⟨2024, 1, 9, 0⟩)]
  cols := [⟨2, "cBOD5", true, false⟩, ⟨3, "TSS", true, false⟩]
  series1 := [("cBOD5", [(⟨2024, 1, 9, 0⟩, 3)]), ("TSS", [(⟨2024, 1, 9, 0⟩, 7)])]
  series2 := []

/-- Boolean check that consecutive entries of a month-number list step
by `nextMonthNum` (kernel-friendly counterpart of `List.Chain'`). -/
def chainNext : List Nat → Bool
  | a :: b :: rest => (b = nextMonthNum a) && chainNext (b :: rest)
  | _ => true

/- ---------------------------------------------------------------- -/
/- Helper lemmas                                                     -/
/- ---------------------------------------------------------------- -/

lemma le_iff_dtKey (a b : PyDateTime) : a.le b ↔ dtKey a ≤ dtKey b := by
  unfold PyDateTime.le dtKey
  simp only [Prod.Lex.le_iff]

lemma pyDateTime_le_total (a b : PyDateTime) : a.le b ∨ b.le a := by
  rw [le_iff_dtKey, le_iff_dtKey]
  exact le_total _ _

lemma pyDateTime_le_trans {a b c : PyDateTime} (h1 : a.le b) (h2 : b.le c) : a.le c := by
  rw [le_iff_dtKey] at *
  exact le_trans h1 h2

instance : IsTotal (PyDateTime × ℚ) ptLe :=
  ⟨fun a b => pyDateTime_le_total a.1 b.1⟩

instance : IsTrans (PyDateTime × ℚ) ptLe :=
  ⟨fun _ _ _ h1 h2 => pyDateTime_le_trans h1 h2⟩

lemma ym_add_idx (y m δ : Int) :
    monthIdx (ym_add y m δ).1 (ym_add y m δ).2 = monthIdx y m + δ ∧
    1 ≤ (ym_add y m δ).2 ∧ (ym_add y m δ).2 ≤ 12 := by
  unfold ym_add monthIdx
  dsimp only
  refine ⟨?_, ?_, ?_⟩ <;> omega

lemma ym_add_comp (y m a b : Int) :
    ym_add (ym_add y m a).1 (ym_add y m a).2 b = ym_add y m (a + b) := by
  unfold ym_add
  simp only [Prod.mk.injEq]
  constructor <;> omega

lemma ym_add_zero (y m : Int) (h1 : 1 ≤ m) (h2 : m ≤ 12) : ym_add y m 0 = (y, m) := by
  unfold ym_add
  simp only [Prod.mk.injEq]
  constructor <;> omega

lemma month_end_eq (y m : Int) (h1 : 1 ≤ m) (h2 : m ≤ 12) :
    month_end y m = ⟨y, m, daysInMonth y m, 0⟩ := by
  interval_cases m <;>
    simp [month_end, ym_add, month_start, subOneDay, daysInMonth]

lemma mem_lookbackWindow (y m a b : Int) (h1 : 1 ≤ m) (h2 : m ≤ 12) :
    (a, b) ∈ lookbackWindow y m ↔
      1 ≤ b ∧ b ≤ 12 ∧ monthIdx y m - 5 ≤ monthIdx a b ∧ monthIdx a b ≤ monthIdx y m := by
  unfold lookbackWindow ym_add monthIdx
  simp only [List.mem_cons, List.not_mem_nil, or_false, Prod.mk.injEq]
  omega

lemma monthStart_le_iff (sy sm : Int) (d : PyDateTime)
    (hd : 1 ≤ d.day) (hs : 0 ≤ d.sec) :
    (month_start sy sm).le d ↔
      sy < d.year ∨ (sy = d.year ∧ sm ≤ d.month) := by
  unfold month_start PyDateTime.le
  simp only []
  constructor
  · rintro (h | ⟨he, h | ⟨hm2, _⟩⟩)
    · exact Or.inl h
    · exact Or.inr ⟨he, le_of_lt h⟩
    · exact Or.inr ⟨he, le_of_eq hm2⟩
  · rintro (h | ⟨he, hm⟩)
    · exact Or.inl h
    · rcases lt_or_eq_of_le hm with h2 | h2
      · exact Or.inr ⟨he, Or.inl h2⟩
      · refine Or.inr ⟨he, Or.inr ⟨h2, ?_⟩⟩
        rcases lt_or_eq_of_le hd with h3 | h3
        · exact Or.inl h3
        · exact Or.inr ⟨h3, hs⟩

lemma le_monthEnd_iff (y m : Int) (hm1 : 1 ≤ m) (hm2 : m ≤ 12) (d : PyDateTime)
    (hdd : d.day ≤ daysInMonth d.year d.month) (hs : d.sec = 0) :
    d.le (month_end y m) ↔
      d.year < y ∨ (d.year = y ∧ d.month ≤ m) := by
  rw [month_end_eq y m hm1 hm2]
  unfold PyDateTime.le
  simp only []
  constructor
  · rintro (h | ⟨he, h | ⟨hmm, _⟩⟩)
    · exact Or.inl h
    · exact Or.inr ⟨he, le_of_lt h⟩
    · exact Or.inr ⟨he, le_of_eq hmm⟩
  · rintro (h | ⟨he, hm⟩)
    · exact Or.inl h
    · rcases lt_or_eq_of_le hm with h2 | h2
      · exact Or.inr ⟨he, Or.inl h2⟩
      · have hdd2 : d.day ≤ daysInMonth y m := by rw [← he, ← h2]; exact hdd
        rcases lt_or_eq_of_le hdd2 with h3 | h3
        · exact Or.inr ⟨he, Or.inr ⟨h2, Or.inl h3⟩⟩
        · exact Or.inr ⟨he, Or.inr ⟨h2, Or.inr ⟨h3, by rw [hs]⟩⟩⟩

lemma chainNext_iff : ∀ l : List Nat,
    chainNext l = true ↔ List.Chain' (fun a b => b = nextMonthNum a) l
  | [] => by simp [chainNext]
  | [a] => by simp [chainNext]
  | a :: b :: rest => by
    rw [chainNext, List.chain'_cons, Bool.and_eq_true, chainNext_iff (b :: rest)]
    simp

set_option maxRecDepth 4000 in
lemma monthsWalk_spec : ∀ s ∈ List.range' 1 12, ∀ e ∈ List.range' 1 12,
    (monthsWalk 12 s e).head? = some s ∧
    (monthsWalk 12 s e).getLast? = some e ∧
    (monthsWalk 12 s e).length = (e + 12 - s) % 12 + 1 ∧
    chainNext (monthsWalk 12 s e) = true ∧
    (∀ x ∈ monthsWalk 12 s e, 1 ≤ x ∧ x ≤ 12) ∧
    months_between_inclusive (NUM_TO_MONTH s) (NUM_TO_MONTH e) =
      some ((monthsWalk 12 s e).map NUM_TO_MONTH) ∧
    month_numbers_of ((monthsWalk 12 s e).map NUM_TO_MONTH) = monthsWalk 12 s e ∧
    ((monthsWalk 12 s e).map NUM_TO_MONTH).head? = some (NUM_TO_MONTH s) ∧
    ((monthsWalk 12 s e).map NUM_TO_MONTH).getLast? = some (NUM_TO_MONTH e) := by decide

lemma mem_months_full {x : String} (h : x ∈ MONTHS_FULL) :
    ∃ n, 1 ≤ n ∧ n ≤ 12 ∧ NUM_TO_MONTH n = x ∧ MONTH_TO_NUM x = some n ∧
      MONTHS_FULL.indexOf x + 1 = n := by
  fin_cases h
  · exact ⟨1, by decide⟩
  · exact ⟨2, by decide⟩
  · exact ⟨3, by decide⟩
  · exact ⟨4, by decide⟩
  · exact ⟨5, by decide⟩
  · exact ⟨6, by decide⟩
  · exact ⟨7, by decide⟩
  · exact ⟨8, by decide⟩
  · exact ⟨9, by decide⟩
  · exact ⟨10, by decide⟩
  · exact ⟨11, by decide⟩
  · exact ⟨12, by decide⟩

lemma indexOf?_lt_length {α : Type} [BEq α] [LawfulBEq α] :
    ∀ {l : List α} {a : α} {i : Nat}, l.indexOf? a = some i → i < l.length := by
  intro l
  induction l with
  | nil => intro a i h; simp [List.indexOf?_nil] at h
  | cons x xs ih =>
    intro a i h
    rw [List.indexOf?_cons] at h
    by_cases hx : (x == a) = true
    · rw [if_pos hx] at h
      cases h
      simp
    · rw [if_neg hx] at h
      obtain ⟨j, hj, hji⟩ := Option.map_eq_some'.mp h
      have := ih hj
      subst hji
      simp only [List.length_cons]
      omega

lemma find?_range'_min {p : Nat → Bool} :
    ∀ (n s a : Nat), (List.range' s n).find? p = some a →
      ∀ b, s ≤ b → b < a → p b = false := by
  intro n
  induction n with
  | zero => intro s a h; simp at h
  | succ k ih =>
    intro s a h b hsb hba
    rw [List.range'_succ] at h
    by_cases hp : p s = true
    · rw [List.find?_cons_of_pos _ hp] at h
      injection h with h
      omega
    · rw [List.find?_cons_of_neg _ hp] at h
      rcases Nat.eq_or_lt_of_le hsb with rfl | hlt
      · simpa using hp
      · exact ih (s + 1) a h b hlt hba

lemma foldlBest_isSome_of_isSome (f : Nat → Int) :
    ∀ (l : List Nat) (b : Option Nat) (s : Int), b.isSome = true →
      ((l.foldl (fun best c => if f c > best.2 then (some c, f c) else best) (b, s)).1).isSome = true := by
  intro l
  induction l with
  | nil => intro b s hb; simpa using hb
  | cons x xs ih =>
    intro b s hb
    simp only [List.foldl_cons]
    by_cases hx : f x > s
    · rw [if_pos hx]
      exact ih (some x) (f x) rfl
    · rw [if_neg hx]
      exact ih b s hb

lemma find_date_column_isSome (ws : Sheet) (h : 1 ≤ ws.maxCol) :
    ∃ c, find_date_column ws = some c := by
  rcases hf : (scanPairs (min ws.maxRow 60) (min ws.maxCol 60)).find?
      (fun rc => strContains (text ws rc.1 rc.2).toLower "date") with _ | rc
  · obtain ⟨k, hk⟩ : ∃ k, min ws.maxCol 60 = k + 1 := ⟨min ws.maxCol 60 - 1, by omega⟩
    simp only [find_date_column, hf]
    rw [hk, List.range'_succ]
    simp only [List.foldl_cons]
    have hq : ((dateScore ws (min ws.maxRow 40) 1 : Int)) >
        ((none : Option Nat), (-1 : Int)).2 := by
      have : (0 : Int) ≤ (dateScore ws (min ws.maxRow 40) 1 : Int) := Int.natCast_nonneg _
      simp only
      omega
    rw [if_pos hq]
    exact Option.isSome_iff_exists.mp
      (foldlBest_isSome_of_isSome (fun c => (dateScore ws (min ws.maxRow 40) c : Int))
        (List.range' 2 k) (some 1) ((dateScore ws (min ws.maxRow 40) 1 : Int)) rfl)
  · simp only [find_date_column, hf]
    exact ⟨rc.2, rfl⟩

lemma sgsBuild_spec {ws : Sheet} {months : List Int} {year : Int} {pr dc : Nat}
    {res : SGSResult} (h : sgsBuild ws months year pr dc = some res) :
    res.paramRow = pr ∧ res.dateCol = dc ∧ res.startRow = sgs_start_row ws pr ∧
    (res.selYear, res.selMonth) =
      sgsSel months year ((sgsDatedRows ws (sgs_start_row ws pr) dc).map (fun p => p.2)) ∧
    res.startDt = month_start (ym_add res.selYear res.selMonth (-5)).1
      (ym_add res.selYear res.selMonth (-5)).2 ∧
    res.endDt = month_end res.selYear res.selMonth ∧
    res.tableRows = (sgsDatedRows ws (sgs_start_row ws pr) dc).filter
      (fun p => decide (res.startDt.le p.2 ∧ p.2.le res.endDt)) ∧
    res.cols = sgsCols ws pr dc res.tableRows ∧
    res.series1 = sgsSeries ws res.tableRows res.cols true ∧
    res.series2 = sgsSeries ws res.tableRows res.cols false := by
  simp only [sgsBuild] at h
  split_ifs at h
  injection h with h
  subst h
  exact ⟨rfl, rfl, rfl, rfl, rfl, rfl, rfl, rfl, rfl, rfl⟩

lemma ttg_some {ws : Sheet} {months : List Int} {year : Int} {res : SGSResult}
    (h : table_then_two_graphs ws months year = some res) :
    ∃ pr dc, find_param_header_row ws = some pr ∧ find_date_column ws = some dc ∧
      sgsBuild ws months year pr dc = some res := by
  unfold table_then_two_graphs at h
  rcases hp : find_param_header_row ws with _ | pr
  · rw [hp] at h
    exact Option.noConfusion h
  · rcases hd : find_date_column ws with _ | dc
    · rw [hp, hd] at h
      exact Option.noConfusion h
    · rw [hp, hd] at h
      exact ⟨pr, dc, rfl, rfl, h⟩

lemma sheetIsProcess_of_final {n : String} (h : sheetIsFinal n = true) :
    sheetIsProcess n = true := by
  simp only [sheetIsFinal, Bool.or_eq_true] at h
  simp only [sheetIsProcess, Bool.or_eq_true]
  tauto

lemma sgsProcessedNames_no_final :
    ∀ l : List String, (∀ n ∈ l, sheetIsFinal n = false) →
      sgsProcessedNames l = l.filter sheetIsProcess := by
  intro l
  induction l with
  | nil => intro _; rfl
  | cons x xs ih =>
    intro hl
    have hx : sheetIsFinal x = false := hl x (by simp)
    have hxs := ih (fun n hn => hl n (List.mem_cons_of_mem _ hn))
    unfold sgsProcessedNames
    by_cases hp : sheetIsProcess x = true
    · rw [if_pos hp, hx]
      simp only [Bool.false_eq_true, if_false]
      rw [hxs, List.filter_cons_of_pos hp]
    · rw [if_neg hp, hxs, List.filter_cons_of_neg hp]

lemma sgsProcessedNames_stops :
    ∀ (pre : List String) (s : String) (post : List String),
      (∀ n ∈ pre, sheetIsFinal n = false) → sheetIsFinal s = true →
      sgsProcessedNames (pre ++ s :: post) = pre.filter sheetIsProcess ++ [s] := by
  intro pre
  induction pre with
  | nil =>
    intro s post _ hs
    simp only [List.nil_append, List.filter_nil]
    unfold sgsProcessedNames
    rw [if_pos (sheetIsProcess_of_final hs), hs]
    simp
  | cons x xs ih =>
    intro s post hpre hs
    have hx : sheetIsFinal x = false := hpre x (by simp)
    have hrec := ih s post (fun n hn => hpre n (List.mem_cons_of_mem _ hn)) hs
    simp only [List.cons_append]
    unfold sgsProcessedNames
    by_cases hp : sheetIsProcess x = true
    · rw [if_pos hp, hx]
      simp only [Bool.false_eq_true, if_false]
      rw [hrec, List.filter_cons_of_pos hp, List.cons_append]
    · rw [if_neg hp, hrec, List.filter_cons_of_neg hp]

/- ---------------------------------------------------------------- -/
/- Claim theorems                                                    -/
/- ---------------------------------------------------------------- -/

/-- C6: the header-row locator scans the first ~80 rows by ~80 columns
and returns the first row with at least 2 parameter-keyword hits; it
returns not-found exactly when no row of the scan region has 2 or more
hits. -/
theorem claim_C6 (ws : Sheet) (r : Nat) :
    (find_param_header_row ws = none ↔
      ∀ r0 ∈ List.range' 1 (min ws.maxRow 80), rowHits ws r0 < 2) ∧
    (find_param_header_row ws = some r →
      (1 ≤ r ∧ r ≤ min ws.maxRow 80) ∧ 2 ≤ rowHits ws r ∧
        ∀ r0, 1 ≤ r0 → r0 < r → rowHits ws r0 < 2) := by
  constructor
  · unfold find_param_header_row
    rw [List.find?_eq_none]
    simp only [decide_eq_true_eq, Nat.not_le]
  · intro h
    have h1 := List.find?_some h
    have h2 := List.mem_of_find?_eq_some h
    rw [List.mem_range'_1] at h2
    refine ⟨⟨h2.1, by omega⟩, by simpa using h1, ?_⟩
    intro r0 hr0 hr0r
    have := find?_range'_min (min ws.maxRow 80) 1 r h r0 hr0 hr0r
    simpa using this

/-- C6 witness: on the concrete sheet `ws1` the locator returns row 1,
which indeed has 2 keyword hits and is trivially minimal. -/
theorem claim_C6_witness :
    (1 ≤ 1 ∧ 1 ≤ min ws1.maxRow 80) ∧ 2 ≤ rowHits ws1 1 ∧
      ∀ r0, 1 ≤ r0 → r0 < 1 → rowHits ws1 r0 < 2 :=
  (claim_C6 ws1 1).2 (by decide!)

/-- C8: a series point is flagged as an exceedance exactly when its
value strictly exceeds the threshold, and the average is classified with
the fixed bands: strictly below 90% of the threshold is "well within",
from 90% up to 100% inclusive is "close to", strictly above is "above";
in particular exactly 90% classifies "close to", 89.9% "well within" and
100.01% "above". -/
theorem claim_C8 (peak avgFlow : ℚ) (pairs : List (Option PyDateTime × ℚ))
    (p : Option PyDateTime × ℚ) (hp : 0 < peak) :
    (p ∈ flowExceedances pairs peak ↔ p ∈ pairs ∧ peak < p.2) ∧
    (avg_classification avgFlow peak = AvgClass.wellWithin ↔ avgFlow < 9 / 10 * peak) ∧
    (avg_classification avgFlow peak = AvgClass.closeTo ↔
      9 / 10 * peak ≤ avgFlow ∧ avgFlow ≤ peak) ∧
    (avg_classification avgFlow peak = AvgClass.above ↔ peak < avgFlow) ∧
    avg_classification (9 / 10 * peak) peak = AvgClass.closeTo ∧
    avg_classification (899 / 1000 * peak) peak = AvgClass.wellWithin ∧
    avg_classification (10001 / 10000 * peak) peak = AvgClass.above := by
  refine ⟨?_, ?_, ?_, ?_, ?_, ?_, ?_⟩
  · unfold flowExceedances
    rw [List.mem_filter]
    simp only [decide_eq_true_eq]
  · unfold avg_classification
    split_ifs with h1 h2 <;> simp [h1]
  · unfold avg_classification
    split_ifs with h1 h2
    · exact iff_of_false (by simp) (fun hc => absurd hc.1 (not_le.mpr h1))
    · exact iff_of_true rfl ⟨not_lt.mp h1, h2⟩
    · exact iff_of_false (by simp) (fun hc => absurd hc.2 h2)
  · unfold avg_classification
    split_ifs with h1 h2
    · exact iff_of_false (by simp) (fun hc => by linarith)
    · exact iff_of_false (by simp) (fun hc => absurd hc (not_lt.mpr h2))
    · exact iff_of_true rfl (not_le.mp h2)
  · unfold avg_classification
    rw [if_neg (lt_irrefl _), if_pos (by linarith)]
  · unfold avg_classification
    rw [if_pos (by linarith)]
  · unfold avg_classification
    rw [if_neg (by intro hc; linarith), if_neg (by intro hc; linarith)]

/-- C8 witness: the three band examples at the concrete threshold
1000. -/
theorem claim_C8_witness :
    avg_classification ((9 : ℚ) / 10 * 1000) 1000 = AvgClass.closeTo ∧
    avg_classification ((899 : ℚ) / 1000 * 1000) 1000 = AvgClass.wellWithin ∧
    avg_classification ((10001 : ℚ) / 10000 * 1000) 1000 = AvgClass.above := by
  obtain ⟨_, _, _, _, h5, h6, h7⟩ := claim_C8 1000 0 [] (none, 0) (by norm_num)
  exact ⟨h5, h6, h7⟩

/-- C10: the SGS sheet loop processes exactly the process-eligible names
up to and including the first final/polisher sheet; that sheet is
processed, and the names after it never influence the processed list
(which, absent any final/polisher name, is the full process-eligible
filter). -/
theorem claim_C10 (pre post : List String) (s : String)
    (hpre : ∀ n ∈ pre, sheetIsFinal n = false) (hs : sheetIsFinal s = true) :
    sgsProcessedNames (pre ++ s :: post) = pre.filter sheetIsProcess ++ [s] ∧
    sheetIsProcess s = true ∧
    s ∈ sgsProcessedNames (pre ++ s :: post) ∧
    (∀ post2, sgsProcessedNames (pre ++ s :: post2) = sgsProcessedNames (pre ++ s :: post)) ∧
    (∀ l : List String, (∀ n ∈ l, sheetIsFinal n = false) →
      sgsProcessedNames l = l.filter sheetIsProcess) := by
  have h1 := sgsProcessedNames_stops pre s post hpre hs
  refine ⟨h1, sheetIsProcess_of_final hs, ?_, ?_, sgsProcessedNames_no_final⟩
  · rw [h1]
    simp
  · intro post2
    rw [h1, sgsProcessedNames_stops pre s post2 hpre hs]

/-- C10 witness: a concrete workbook in which the sheet after the first
final-effluent sheet is eligible yet unprocessed. -/
theorem claim_C10_witness :
    sgsProcessedNames ["ABC Raw Sewage", "Notes", "ABC Final Effluent", "XYZ Biofilter"] =
      ["ABC Raw Sewage", "ABC Final Effluent"] := by
  show sgsProcessedNames
    (["ABC Raw Sewage", "Notes"] ++ "ABC Final Effluent" :: ["XYZ Biofilter"]) = _
  rw [(claim_C10 ["ABC Raw Sewage", "Notes"] ["XYZ Biofilter"] "ABC Final Effluent"
    (by decide!) (by decide!)).1]
  decide!

/-- C5: the date normalizer's ordered rules — native datetimes pass
through, pure times and empty cells give no date, the known non-data
labels give no date, other strings are tried against the fixed format
list with the first success winning, numeric serials convert through the
1900-system conversion with the manual epoch fallback when it raises,
and serial 45292 (as a number) normalises to the same calendar date
2024-01-01 as the equivalent formatted string. -/
theorem claim_C5 (d0 : PyDateTime) (tq q : ℚ) (s : String) (y m dd : Int) :
    parse_date_cell (CellVal.dt d0) = some d0 ∧
    parse_date_cell (CellVal.time tq) = none ∧
    parse_date_cell CellVal.empty = none ∧
    (s.trim = "" → parse_date_cell (CellVal.str s) = none) ∧
    (s.trim.toLower ∈ DATE_LABELS → parse_date_cell (CellVal.str s) = none) ∧
    (s.trim ≠ "" → s.trim.toLower ∉ DATE_LABELS →
      parse_date_cell (CellVal.str s) =
        DATE_PARSE_FORMATS.findSome? (fun f => strptimeYmd f s.trim)) ∧
    parse_date_cell (CellVal.date y m dd) = some ⟨y, m, dd, 0⟩ ∧
    (∀ d1, from_excel q = ExcelConv.dt d1 → parse_date_cell (CellVal.num q) = some d1) ∧
    (∀ sq, from_excel q = ExcelConv.timeOnly sq → parse_date_cell (CellVal.num q) = none) ∧
    (from_excel q = ExcelConv.fail → parse_date_cell (CellVal.num q) = excel_fallback q) ∧
    parse_date_cell (CellVal.num 45292) = some ⟨2024, 1, 1, 0⟩ ∧
    parse_date_cell (CellVal.str "2024-01-01") = some ⟨2024, 1, 1, 0⟩ ∧
    parse_date_cell (CellVal.num 45292) = parse_date_cell (CellVal.str "2024-01-01") := by
  refine ⟨rfl, rfl, rfl, ?_, ?_, ?_, rfl, ?_, ?_, ?_, ?_, ?_, ?_⟩
  · intro h
    simp [parse_date_cell, h]
  · intro h
    by_cases hb : s.trim = ""
    · simp [parse_date_cell, hb]
    · simp [parse_date_cell, hb, h]
  · intro h1 h2
    simp [parse_date_cell, h1, h2]
  · intro d1 hq
    simp [parse_date_cell, hq]
  · intro sq hq
    simp [parse_date_cell, hq]
  · intro hq
    simp [parse_date_cell, hq]
  · decide!
  · decide!
  · decide!

/-- C5 witness: the label, blank and format-list string branches at
concrete inputs. -/
theorem claim_C5_witness :
    parse_date_cell (CellVal.str "  Average ") = none ∧
    parse_date_cell (CellVal.str "   ") = none ∧
    parse_date_cell (CellVal.str "01-Jan-2024") =
      DATE_PARSE_FORMATS.findSome? (fun f => strptimeYmd f "01-Jan-2024".trim) := by
  refine ⟨(claim_C5 ⟨1, 1, 1, 0⟩ 0 0 "  Average " 1 1 1).2.2.2.2.1 (by decide!),
    (claim_C5 ⟨1, 1, 1, 0⟩ 0 0 "   " 1 1 1).2.2.2.1 (by decide!),
    (claim_C5 ⟨1, 1, 1, 0⟩ 0 0 "01-Jan-2024" 1 1 1).2.2.2.2.2.1 (by decide!) (by decide!)⟩

/-- C2: for a valid target month, the schedule window degenerates to the
single target month when the target is unscheduled; otherwise it is the
calendar walk from the schedule predecessor (the entry before the
target's first occurrence, wrapping to the last entry) to the target
inclusive — one entry per calendar month traversed, calendar-contiguous,
starting at the predecessor and ending at the target; in particular
schedule March/July/November with target November gives July..November
and schedule January/June with target January gives the 8-month walk
June..January. -/
theorem claim_C2 (visits : List String) (curr : String)
    (hcur : curr ∈ MONTHS_FULL) (hv : ∀ v ∈ visits, v ∈ MONTHS_FULL) :
    (curr ∉ visits → span_months visits curr = some [curr]) ∧
    (curr ∈ visits → ∃ prev, previous_visit_month visits curr = some prev ∧
      prev ∈ visits ∧ span_months visits curr = months_between_inclusive prev curr) ∧
    (∀ prev, previous_visit_month visits curr = some prev → prev ∈ MONTHS_FULL →
      ∃ sp ns ne, months_between_inclusive prev curr = some sp ∧
        MONTH_TO_NUM prev = some ns ∧ MONTH_TO_NUM curr = some ne ∧
        sp.head? = some prev ∧ sp.getLast? = some curr ∧
        sp.length = (ne + 12 - ns) % 12 + 1 ∧
        List.Chain' (fun a b => b = nextMonthNum a) (month_numbers_of sp) ∧
        (∀ x ∈ month_numbers_of sp, 1 ≤ x ∧ x ≤ 12)) ∧
    span_months ["March", "July", "November"] "November" =
      some ["July", "August", "September", "October", "November"] ∧
    span_months ["January", "June"] "January" =
      some ["June", "July", "August", "September", "October", "November", "December",
        "January"] := by
  refine ⟨?_, ?_, ?_, by decide!, by decide!⟩
  · intro hnm
    have hnone : visits.indexOf? curr = none :=
      List.indexOf?_eq_none_iff.mpr (fun x hx h => hnm ((eq_of_beq h) ▸ hx))
    simp [span_months, previous_visit_month, hnone]
  · intro hm
    rcases hi : visits.indexOf? curr with _ | idx
    · exact absurd (beq_self_eq_true curr) (List.indexOf?_eq_none_iff.mp hi curr hm)
    · by_cases h0 : 0 < idx
      · have hlt : idx < visits.length := indexOf?_lt_length hi
        obtain ⟨prev, hprev⟩ : ∃ prev, visits[idx - 1]? = some prev :=
          ⟨_, List.getElem?_eq_getElem (show idx - 1 < visits.length by omega)⟩
        have hmem : prev ∈ visits := List.getElem?_mem hprev
        have hne : prev ≠ "" := by
          intro he
          have := hv prev hmem
          rw [he] at this
          exact absurd this (by decide)
        refine ⟨prev, ?_, hmem, ?_⟩
        · simp [previous_visit_month, hi, h0, hprev]
        · simp [span_months, previous_visit_month, hi, h0, hprev, hne]
      · have h0' : idx = 0 := by omega
        subst h0'
        have hnil : visits ≠ [] := by
          intro he
          rw [he] at hm
          simp at hm
        obtain ⟨prev, hprev⟩ := Option.isSome_iff_exists.mp (List.getLast?_isSome.mpr hnil)
        have hmem : prev ∈ visits := List.mem_of_mem_getLast? hprev
        have hne : prev ≠ "" := by
          intro he
          have := hv prev hmem
          rw [he] at this
          exact absurd this (by decide)
        refine ⟨prev, ?_, hmem, ?_⟩
        · simp [previous_visit_month, hi, hprev]
        · simp [span_months, previous_visit_month, hi, hprev, hne]
  · intro prev hpv hpm
    obtain ⟨ns, hns1, hns2, hns3, hns4, _⟩ := mem_months_full hpm
    obtain ⟨ne, hne1, hne2, hne3, hne4, _⟩ := mem_months_full hcur
    have hw := monthsWalk_spec ns (by rw [List.mem_range'_1]; omega)
      ne (by rw [List.mem_range'_1]; omega)
    obtain ⟨hw1, hw2, hw3, hw4, hw5, hw6, hw7, hw8, hw9⟩ := hw
    refine ⟨(monthsWalk 12 ns ne).map NUM_TO_MONTH, ns, ne, ?_, hns4, hne4, ?_, ?_, ?_, ?_, ?_⟩
    · rw [← hns3, ← hne3]
      exact hw6
    · rw [hw8, hns3]
    · rw [hw9, hne3]
    · rw [List.length_map, hw3]
    · rw [hw7]
      exact (chainNext_iff _).mp hw4
    · rw [hw7]
      exact hw5

/-- C2 witness: an unscheduled target month degenerates to the
single-month window. -/
theorem claim_C2_witness :
    span_months ["March", "July"] "May" = some ["May"] :=
  (claim_C2 ["March", "July"] "May" (by decide) (by decide)).1 (by decide)

/-- C4: the fixed-lookback mode spans exactly the inclusive 6-month
window ending at the reference month: the window list has length 6, ends
at the reference, is calendar-contiguous across year boundaries, the row
filter bounds are the first day of the earliest window month and the
last day of the reference month, a date-valued timestamp lies between
the bounds exactly when its month belongs to the window, reference
(3, 2024) gives October 2023 .. March 2024, and
`table_then_two_graphs` uses precisely these bounds for the last month
token and year it is given. -/
theorem claim_C4 (y m : Int) (hm1 : 1 ≤ m) (hm2 : m ≤ 12) :
    (lookbackWindow y m).length = 6 ∧
    (lookbackWindow y m).head? = some (ym_add y m (-5)) ∧
    (lookbackWindow y m).getLast? = some (y, m) ∧
    List.Chain' (fun a b => b = ym_add a.1 a.2 1) (lookbackWindow y m) ∧
    (∀ d : PyDateTime, validDayDate d →
      ((month_start (ym_add y m (-5)).1 (ym_add y m (-5)).2).le d ∧ d.le (month_end y m) ↔
        (d.year, d.month) ∈ lookbackWindow y m)) ∧
    month_end y m = ⟨y, m, daysInMonth y m, 0⟩ ∧
    lookbackWindow 2024 3 =
      [(2023, 10), (2023, 11), (2023, 12), (2024, 1), (2024, 2), (2024, 3)] ∧
    month_start (ym_add 2024 3 (-5)).1 (ym_add 2024 3 (-5)).2 = ⟨2023, 10, 1, 0⟩ ∧
    month_end 2024 3 = ⟨2024, 3, 31, 0⟩ ∧
    (∀ ws months res, table_then_two_graphs ws months y = some res →
      months.getLast? = some m →
      res.selYear = y ∧ res.selMonth = m ∧
      res.startDt = month_start (ym_add y m (-5)).1 (ym_add y m (-5)).2 ∧
      res.endDt = month_end y m) := by
  refine ⟨rfl, rfl, ?_, ?_, ?_, month_end_eq y m hm1 hm2, by decide, by decide, by decide, ?_⟩
  · have h : (lookbackWindow y m).getLast? = some (ym_add y m 0) := rfl
    rw [h, ym_add_zero y m hm1 hm2]
  · simp only [lookbackWindow, List.chain'_cons, List.chain'_singleton, and_true]
    refine ⟨?_, ?_, ?_, ?_, ?_⟩ <;> (rw [ym_add_comp]; norm_num)
  · intro d hd
    obtain ⟨hdm1, hdm2, hdd1, hdd2, hsec⟩ := hd
    have hb := ym_add_idx y m (-5)
    rw [monthStart_le_iff _ _ d hdd1 (by rw [hsec])]
    rw [le_monthEnd_iff y m hm1 hm2 d hdd2 hsec]
    rw [mem_lookbackWindow y m d.year d.month hm1 hm2]
    rcases hsm : ym_add y m (-5) with ⟨sy, sm⟩
    rw [hsm] at hb
    simp only [monthIdx] at hb ⊢
    omega
  · intro ws months res h hl
    obtain ⟨pr, dc, hpr, hdc, hb⟩ := ttg_some h
    obtain ⟨_, _, _, hsel, hstart, hend, _, _, _, _⟩ := sgsBuild_spec hb
    have hss : sgsSel months y
        ((sgsDatedRows ws (sgs_start_row ws pr) dc).map (fun p => p.2)) = (y, m) := by
      unfold sgsSel
      rw [hl]
    rw [hss] at hsel
    have hy : res.selYear = y := congrArg Prod.fst hsel
    have hm' : res.selMonth = m := congrArg Prod.snd hsel
    rw [hy, hm'] at hstart hend
    exact ⟨hy, hm', hstart, hend⟩

/-- C4 witness: the concrete window for reference month 3 of 2024. -/
theorem claim_C4_witness :
    lookbackWindow 2024 3 =
      [(2023, 10), (2023, 11), (2023, 12), (2024, 1), (2024, 2), (2024, 3)] ∧
    month_start (ym_add 2024 3 (-5)).1 (ym_add 2024 3 (-5)).2 = ⟨2023, 10, 1, 0⟩ ∧
    month_end 2024 3 = ⟨2024, 3, 31, 0⟩ := by
  obtain ⟨_, _, _, _, _, _, h7, h8, h9, _⟩ := claim_C4 2024 3 (by norm_num) (by norm_num)
  exact ⟨h7, h8, h9⟩

lemma findSome?_none {A B : Type} : ∀ l : List A, l.findSome? (fun _ => (none : Option B)) = none
  | [] => rfl
  | x :: xs => by
    rw [List.findSome?_cons]
    exact findSome?_none xs

lemma previous_visit_month_mem {visits : List String} {curr prev : String}
    (h : previous_visit_month visits curr = some prev) : prev ∈ visits := by
  unfold previous_visit_month at h
  rcases hi : visits.indexOf? curr with _ | idx
  · rw [hi] at h
    exact Option.noConfusion h
  · rw [hi] at h
    have h' : (if 0 < idx then visits[idx - 1]? else visits.getLast?) = some prev := h
    by_cases h0 : 0 < idx
    · rw [if_pos h0] at h'
      exact List.getElem?_mem h'
    · rw [if_neg h0] at h'
      exact List.mem_of_mem_getLast? h'

lemma flowMonthPairs_year (months : List Nat) (year : Int) :
    ∀ p ∈ flowMonthPairs months year, p.2 = year := by
  intro p hp
  obtain ⟨m', _, rfl⟩ := List.mem_map.mp hp
  rfl

lemma sgsSeries_points_sound {ws : Sheet} {inWin : List (Nat × PyDateTime)}
    {cols : List ParamCol} {useG1 : Bool} {lbl : String} {pts : List (PyDateTime × ℚ)}
    (h : (lbl, pts) ∈ sgsSeries ws inWin cols useG1) :
    ∀ d v, (d, v) ∈ pts → ∃ r, (r, d) ∈ inWin := by
  unfold sgsSeries at h
  obtain ⟨pc, _, hf⟩ := List.mem_filterMap.mp h
  simp only at hf
  by_cases he : seriesPoints ws inWin pc.idx = []
  · rw [if_pos he] at hf
    exact Option.noConfusion hf
  · rw [if_neg he] at hf
    injection hf with hf
    injection hf with h1 h2
    intro d v hdv
    rw [← h2] at hdv
    unfold seriesPoints at hdv
    obtain ⟨p, hp, hmap⟩ := List.mem_filterMap.mp hdv
    obtain ⟨q, _, hq2⟩ := Option.map_eq_some'.mp hmap
    have hd : p.2 = d := congrArg Prod.fst hq2
    exact ⟨p.1, by rw [← hd]; exact hp⟩

lemma filterMap_day_eq (l : List (Option PyDateTime × ℚ)) :
    l.filterMap (fun p => p.1.map (fun d => ((d.day : Int), p.2))) =
      (l.filter (fun p => p.1.isSome)).map
        (fun p => (((p.1.getD ⟨1, 1, 1, 0⟩).day : Int), p.2)) := by
  induction l with
  | nil => rfl
  | cons x xs ih =>
    rcases x with ⟨od, v⟩
    cases od
    · simp [List.filterMap_cons, List.filter_cons, ih]
    · simp [List.filterMap_cons, List.filter_cons, ih]

/-- C1 counterexample: on `ws1` with window month 1 of 2024, the row
dated 2024-01-31 at noon (serial 45322.5) has its normalized date inside
the window's final month (January 2024 is in the active MonthWindow),
yet the row appears in no table row and no series point — refuting
"every in-window dated row appears".  The code's filter compares the
timestamp against midnight of the window's last day. -/
theorem claim_C1_counterexample :
    parse_date_cell (ws1.cell 3 1) = some ⟨2024, 1, 31, 43200⟩ ∧
    ((2024 : Int), (1 : Int)) ∈ lookbackWindow 2024 1 ∧
    (table_then_two_graphs ws1 [1] 2024).map (fun r => (r.selYear, r.selMonth)) =
      some (2024, 1) ∧
    (table_then_two_graphs ws1 [1] 2024).map (fun r => r.tableRows) =
      some [(2, ⟨2024, 1, 9, 0⟩)] ∧
    (table_then_two_graphs ws1 [1] 2024).map (fun r =>
      (r.series1 ++ r.series2).all (fun s => s.2.all (fun p => p.1.day != 31))) =
      some true := by
  decide!

/-- C1 (amended): the rows backing the table are exactly the dated rows
of the scanned region whose timestamp lies between the first day of the
earliest window month (midnight) and the last day of the reference month
at midnight — so a row dated before the window start appears nowhere,
and a row on the window's last day with a nonzero time-of-day is also
excluded; every series point comes from one of the table's rows. -/
theorem claim_C1_amended (ws : Sheet) (months : List Int) (year : Int) (res : SGSResult)
    (h : table_then_two_graphs ws months year = some res) :
    (∀ r d, (r, d) ∈ res.tableRows ↔
      ((r, d) ∈ sgsDatedRows ws res.startRow res.dateCol ∧
        res.startDt.le d ∧ d.le res.endDt)) ∧
    (∀ lbl pts, ((lbl, pts) ∈ res.series1 ∨ (lbl, pts) ∈ res.series2) →
      ∀ d v, (d, v) ∈ pts → ∃ r, (r, d) ∈ res.tableRows) ∧
    res.startDt = month_start (ym_add res.selYear res.selMonth (-5)).1
      (ym_add res.selYear res.selMonth (-5)).2 ∧
    res.endDt = month_end res.selYear res.selMonth := by
  obtain ⟨pr, dc, hpr, hdc, hb⟩ := ttg_some h
  obtain ⟨hp, hd, hsr, hsel, hstart, hend, htab, hcols, hs1, hs2⟩ := sgsBuild_spec hb
  refine ⟨?_, ?_, hstart, hend⟩
  · intro r d
    rw [hsr, hd, htab, List.mem_filter]
    simp only [decide_eq_true_eq]
  · intro lbl pts hmem d v hdv
    rcases hmem with hmem | hmem
    · rw [hs1] at hmem
      exact sgsSeries_points_sound hmem d v hdv
    · rw [hs2] at hmem
      exact sgsSeries_points_sound hmem d v hdv

/-- C1 witness: the amended characterization instantiated on the
concrete sheet `ws1`. -/
theorem claim_C1_witness :
    (∀ r d, (r, d) ∈ sgsRes1.tableRows ↔
      ((r, d) ∈ sgsDatedRows ws1 sgsRes1.startRow sgsRes1.dateCol ∧
        sgsRes1.startDt.le d ∧ d.le sgsRes1.endDt)) ∧
    (∀ lbl pts, ((lbl, pts) ∈ sgsRes1.series1 ∨ (lbl, pts) ∈ sgsRes1.series2) →
      ∀ d v, (d, v) ∈ pts → ∃ r, (r, d) ∈ sgsRes1.tableRows) ∧
    sgsRes1.startDt = month_start (ym_add sgsRes1.selYear sgsRes1.selMonth (-5)).1
      (ym_add sgsRes1.selYear sgsRes1.selMonth (-5)).2 ∧
    sgsRes1.endDt = month_end sgsRes1.selYear sgsRes1.selMonth :=
  claim_C1_amended ws1 [1] 2024 sgsRes1 (by decide!)

/-- C3 counterexample: for the schedule January/June with target January
and year 2024 the window crosses December into January
(months 6,7,...,12,1), yet the month/year pairs FlowData looks up all
carry year 2024: the pair list is not calendar-contiguous, the pair
(June, 2023) never occurs, and June's sheet token is "Jun 24" — the
months before the wrap do not carry the prior year. -/
theorem claim_C3_counterexample :
    (span_months ["January", "June"] "January").map month_numbers_of =
      some [6, 7, 8, 9, 10, 11, 12, 1] ∧
    monthWindowPairsFlow ["January", "June"] "January" 2024 =
      some [(1, 2024), (6, 2024), (7, 2024), (8, 2024), (9, 2024), (10, 2024), (11, 2024),
        (12, 2024)] ∧
    ¬ List.Chain' (fun a b => b = nextMonthPair a)
      [((1 : Nat), (2024 : Int)), (6, 2024), (7, 2024), (8, 2024), (9, 2024), (10, 2024),
        (11, 2024), (12, 2024)] ∧
    ((6 : Nat), (2023 : Int)) ∉
      [((1 : Nat), (2024 : Int)), (6, 2024), (7, 2024), (8, 2024), (9, 2024), (10, 2024),
        (11, 2024), (12, 2024)] ∧
    flowTarget 6 2024 = "Jun 24" := by
  refine ⟨by decide!, by decide!, ?_, by decide, by decide!⟩
  intro h
  obtain ⟨h1, -⟩ := List.chain'_cons.mp h
  simp [nextMonthPair] at h1

/-- C3 (amended): the month window handed to extraction is a nonempty,
calendar-contiguous (mod 12) list of month numbers without years;
FlowData sorts those months ascending and pairs every one of them with
the single selected year, so a window that wraps a year boundary is
looked up under the selected year rather than the prior year for the
pre-wrap months. -/
theorem claim_C3_amended (visits : List String) (curr : String) (year : Int)
    (hcur : curr ∈ MONTHS_FULL) (hv : ∀ v ∈ visits, v ∈ MONTHS_FULL) :
    ∃ sp, span_months visits curr = some sp ∧ sp ≠ [] ∧
      (∀ x ∈ month_numbers_of sp, 1 ≤ x ∧ x ≤ 12) ∧
      List.Chain' (fun a b => b = nextMonthNum a) (month_numbers_of sp) ∧
      monthWindowPairsFlow visits curr year =
        some (flowMonthPairs (month_numbers_of sp) year) ∧
      (∀ p ∈ flowMonthPairs (month_numbers_of sp) year, p.2 = year) := by
  obtain ⟨ne, he1, he2, he3, he4, he5⟩ := mem_months_full hcur
  rcases hp : previous_visit_month visits curr with _ | prev
  · refine ⟨[curr], by simp [span_months, hp], by simp, ?_, ?_, ?_,
      flowMonthPairs_year _ _⟩
    · intro x hx
      simp only [month_numbers_of, List.map_cons, List.map_nil, List.mem_singleton] at hx
      omega
    · simp [month_numbers_of]
    · simp [monthWindowPairsFlow, span_months, hp]
  · have hpm : prev ∈ MONTHS_FULL := hv prev (previous_visit_month_mem hp)
    have hne : prev ≠ "" := fun he => absurd (he ▸ hpm) (by decide)
    obtain ⟨ns, hs1, hs2, hs3, hs4, hs5⟩ := mem_months_full hpm
    obtain ⟨hw1, hw2, hw3, hw4, hw5, hw6, hw7, hw8, hw9⟩ :=
      monthsWalk_spec ns (by rw [List.mem_range'_1]; omega)
        ne (by rw [List.mem_range'_1]; omega)
    have hspan : span_months visits curr =
        some ((monthsWalk 12 ns ne).map NUM_TO_MONTH) := by
      have h1 : span_months visits curr = months_between_inclusive prev curr := by
        simp [span_months, hp, hne]
      rw [h1, ← hs3, ← he3]
      exact hw6
    refine ⟨(monthsWalk 12 ns ne).map NUM_TO_MONTH, hspan, ?_, ?_, ?_, ?_,
      flowMonthPairs_year _ _⟩
    · intro hnil
      have := congrArg List.length hnil
      rw [List.length_map, hw3] at this
      simp at this
    · rw [hw7]
      exact hw5
    · rw [hw7]
      exact (chainNext_iff _).mp hw4
    · simp [monthWindowPairsFlow, hspan]

/-- C3 witness: the amended description instantiated at the wrapping
schedule January/June with target January. -/
theorem claim_C3_witness :
    ∃ sp, span_months ["January", "June"] "January" = some sp ∧ sp ≠ [] ∧
      (∀ x ∈ month_numbers_of sp, 1 ≤ x ∧ x ≤ 12) ∧
      List.Chain' (fun a b => b = nextMonthNum a) (month_numbers_of sp) ∧
      monthWindowPairsFlow ["January", "June"] "January" 2024 =
        some (flowMonthPairs (month_numbers_of sp) 2024) ∧
      (∀ p ∈ flowMonthPairs (month_numbers_of sp) 2024, p.2 = 2024) :=
  claim_C3_amended ["January", "June"] "January" 2024 (by decide) (by decide)

/-- C7 counterexample: on `ws2` no scanned cell's text contains "date"
and no scanned cell parses as a date, yet the date-column locator
returns column 1 rather than not-found. -/
theorem claim_C7_counterexample :
    (∀ r ∈ List.range' 1 (min ws2.maxRow 60), ∀ c ∈ List.range' 1 (min ws2.maxCol 60),
      strContains (text ws2 r c).toLower "date" = false ∧
        parse_date_cell (ws2.cell r c) = none) ∧
    find_date_column ws2 = some 1 := by
  decide!

/-- C7 (amended): a missing anchor does skip extraction (a sheet with no
header row or no date column contributes nothing), but the date-column
fallback returns the first best-scoring column even when the best score
is zero: for any sheet with at least one column the locator returns some
column, and it returns not-found only when the sheet has no columns at
all. -/
theorem claim_C7_amended (ws : Sheet) (months : List Int) (year : Int) :
    (find_param_header_row ws = none → table_then_two_graphs ws months year = none) ∧
    (find_date_column ws = none → table_then_two_graphs ws months year = none) ∧
    (1 ≤ ws.maxCol → ∃ c, find_date_column ws = some c) ∧
    (ws.maxCol = 0 → find_date_column ws = none) := by
  refine ⟨?_, ?_, fun h => find_date_column_isSome ws h, ?_⟩
  · intro hp
    unfold table_then_two_graphs
    rw [hp]
  · intro hd
    unfold table_then_two_graphs
    rcases hp : find_param_header_row ws with _ | pr
    · rfl
    · rw [hd]
  · intro h0
    simp [find_date_column, h0, scanPairs]
    rw [findSome?_none]

/-- C7 witness: the single-column existence clause at a concrete
sheet. -/
theorem claim_C7_witness :
    ∃ c, find_date_column ws1 = some c :=
  (claim_C7_amended ws1 [] 0).2.2.1 (by decide)

/-- C9 counterexample: a flow sheet whose rows are dated Jan 5 then
Jan 2 is charted in source-row order — the plotted sequence
[(5, 10), (2, 20)] is not ascending by timestamp, refuting "every
extracted series is sorted before it is charted". -/
theorem claim_C9_counterexample :
    flowFindRows wsF = some (1, 4) ∧
    flowKeepCols wsF 1 4 = [1, 2] ∧
    flowChartCol wsF 1 (flowKeepCols wsF 1 4) = 2 ∧
    flowExtracted wsF 1 4 2 =
      [(some ⟨2024, 1, 5, 0⟩, 10), (some ⟨2024, 1, 2, 0⟩, 20), (none, 15)] ∧
    flowPlotted wsF 1 4 2 = [(5, 10), (2, 20)] ∧
    ¬ List.Chain' (fun a b : Int × ℚ => a.1 ≤ b.1) [((5 : Int), (10 : ℚ)), (2, 20)] := by
  refine ⟨by decide!, by decide!, by decide!, by decide!, by decide!, ?_⟩
  intro h
  obtain ⟨h1, -⟩ := List.chain'_cons.mp h
  norm_num at h1

/-- C9 (amended): the SGS plotter does sort — each series it draws is a
timestamp-ascending permutation of its points — but FlowData does not:
its plotted rows are the extracted rows in original order (an
order-preserving sublist projection), with only the dateless rows
dropped. -/
theorem claim_C9_amended (pts : List (PyDateTime × ℚ)) (ws : Sheet)
    (dateRow avgRow chartCol : Nat) :
    (plotClean pts).Perm pts ∧
    List.Sorted ptLe (plotClean pts) ∧
    ((flowExtracted ws dateRow avgRow chartCol).filter (fun p => p.1.isSome)).Sublist
      (flowExtracted ws dateRow avgRow chartCol) ∧
    (¬((!(flowExtracted ws dateRow avgRow chartCol).isEmpty &&
        (flowExtracted ws dateRow avgRow chartCol).all (fun p => p.1.isNone)) = true) →
      flowPlotted ws dateRow avgRow chartCol =
        ((flowExtracted ws dateRow avgRow chartCol).filter (fun p => p.1.isSome)).map
          (fun p => (((p.1.getD ⟨1, 1, 1, 0⟩).day : Int), p.2))) := by
  refine ⟨List.perm_insertionSort ptLe pts, List.sorted_insertionSort ptLe pts,
    List.filter_sublist _, ?_⟩
  intro hnb
  simp only [flowPlotted]
  rw [if_neg hnb]
  exact filterMap_day_eq _

/-- C9 witness: the amended statement's FlowData clause instantiated on
the out-of-order sheet `wsF`, and the SGS sort on its two points. -/
theorem claim_C9_witness :
    (plotClean [((⟨2024, 1, 5, 0⟩ : PyDateTime), (10 : ℚ)), (⟨2024, 1, 2, 0⟩, 20)]).Perm
      [(⟨2024, 1, 5, 0⟩, 10), (⟨2024, 1, 2, 0⟩, 20)] ∧
    flowPlotted wsF 1 4 2 =
      ((flowExtracted wsF 1 4 2).filter (fun p => p.1.isSome)).map
        (fun p => (((p.1.getD ⟨1, 1, 1, 0⟩).day : Int), p.2)) :=
  ⟨(claim_C9_amended [(⟨2024, 1, 5, 0⟩, 10), (⟨2024, 1, 2, 0⟩, 20)] wsF 1 4 2).1,
    (claim_C9_amended [] wsF 1 4 2).2.2.2 (by decide!)⟩
